import Mathlib

/- Verification of the resilient multi-source fetch orchestrator of
`city_api_server.js` (a city-information aggregation server).

The JavaScript source is shallowly embedded.  JSON values are the inductive
type `JVal`.  Each provider-chain function (`fetchWeatherData`,
`fetchNewsData`, `fetchEventsData`, `fetchTrafficData`, `fetchCityInfo`) is a
Lean function parameterised by an oracle `fetch : String → Option JVal` that
stands for the outcome of `axiosWithRotation` on each URL: `some d` means the
promise resolved with `response.data = d`, `none` means it threw (network
error, timeout, or proxy failure).  Each chain returns its result together
with the list of URLs it passed to the fetcher, in order, so that
provider-ordering properties can be stated.  `axiosWithRotation` itself is
embedded over an explicit cache state, a clock and an event trace, and
`getValidProxy` over an explicit candidate list, a probe-outcome function and
a stream of random indices.

Modelling conventions: JSON numbers are modelled as integers (no claim
depends on float semantics); `process.env` secrets are modelled as the
constant strings below; NodeCache expiry with `stdTTL` is modelled as: an
entry inserted at time `t` (seconds) is visible while `now < t + stdTTL`;
a JavaScript object field whose value is `undefined` is modelled as an
absent field, matching what `res.json` (JSON.stringify) produces; template
interpolation of an array renders its elements comma-separated one level
deep (no claim exercises nested arrays in templates). -/

inductive JVal where
  | null : JVal
  | bool : Bool → JVal
  | num : Int → JVal
  | str : String → JVal
  | arr : List JVal → JVal
  | obj : List (String × JVal) → JVal

/-- JavaScript property access `v.key`: defined on objects, `undefined`
(here `none`) otherwise.  Constructed objects in this file have distinct
keys, so first-match lookup agrees with JavaScript semantics. -/
def JVal.get : JVal → String → Option JVal
  | JVal.obj fields, key => fields.lookup key
  | _, _ => none

/-- The elements of a JSON array, `none` if the value is not an array. -/
def JVal.items : JVal → Option (List JVal)
  | JVal.arr xs => some xs
  | _ => none

/-- JavaScript truthiness of a possibly-undefined value: `undefined`, `null`,
`false`, `0` and the empty string are falsy, everything else truthy. -/
def truthy : Option JVal → Bool
  | none => false
  | some JVal.null => false
  | some (JVal.bool b) => b
  | some (JVal.num n) => n != 0
  | some (JVal.str s) => s != ""
  | some (JVal.arr _) => true
  | some (JVal.obj _) => true

/-- JavaScript `v || fallbackString`: the value if truthy, otherwise the
fallback string. -/
def jsOr (v : Option JVal) (fallback : String) : JVal :=
  if truthy v then v.getD JVal.null else JVal.str fallback

/-- Build an object field from a possibly-undefined value: a field whose
value is `undefined` is omitted, as JSON.stringify does. -/
def jfield (key : String) (v : Option JVal) : List (String × JVal) :=
  match v with
  | some x => [(key, x)]
  | none => []

/-- Rendering of one scalar in a JavaScript template literal. -/
def jsAtom : JVal → String
  | JVal.null => "null"
  | JVal.bool b => if b then "true" else "false"
  | JVal.num n => toString n
  | JVal.str s => s
  | JVal.arr _ => ""
  | JVal.obj _ => "[object Object]"

/-- JavaScript template-literal interpolation of a possibly-undefined value;
arrays render comma-separated one level deep. -/
def jsTemplate : Option JVal → String
  | none => "undefined"
  | some (JVal.arr xs) => String.intercalate "," (xs.map jsAtom)
  | some v => jsAtom v

/-- JavaScript `Number(v)` when that coercion yields a plain integer:
numbers are themselves, `null` is 0, booleans are 0/1, a string parses
after trimming (the empty string is 0, a non-numeric string is NaN, here
`none`).  Arrays and objects coerce through their string forms and, like
fractional numeric strings, are modelled as NaN (`none`); they can only
reach this function through a `length` property of an object payload,
which no claim exercises with such values. -/
def jsNum? : JVal → Option Int
  | JVal.num n => some n
  | JVal.null => some 0
  | JVal.bool b => some (if b then 1 else 0)
  | JVal.str s => if s.trim = "" then some 0 else s.trim.toInt?
  | _ => none

/-- JavaScript `v > 0` on a possibly-undefined value: `undefined` and every
NaN-coercing value compare false; otherwise the numeric coercion is
compared with 0. -/
def jsGtZero : Option JVal → Bool
  | none => false
  | some v =>
    match jsNum? v with
    | some n => 0 < n
    | none => false

/-- JavaScript `v.length` on a possibly-undefined value: raises a TypeError
(`none`) on `undefined` and `null`; arrays and strings report their length;
an object reports its `length` property (usually `undefined`, here
`some none`); numbers and booleans have no such property (`undefined`). -/
def jsLengthOf : Option JVal → Option (Option JVal)
  | none => none
  | some JVal.null => none
  | some (JVal.arr xs) => some (some (JVal.num xs.length))
  | some (JVal.str s) => some (some (JVal.num s.length))
  | some (JVal.obj fields) => some (fields.lookup "length")
  | some _ => some none

/-- JavaScript `v[0]`: raises a TypeError (`none`) on `null`; on an array
the first element or `undefined`; on a string the one-character string of
its first character (or `undefined` when empty); on an object its "0"
property; `undefined` on numbers and booleans. -/
def jsIndexZero : JVal → Option (Option JVal)
  | JVal.null => none
  | JVal.arr xs => some xs.head?
  | JVal.str s =>
    some (if s = "" then none else some (JVal.str (String.singleton s.front)))
  | JVal.obj fields => some (fields.lookup "0")
  | _ => some none

/- The `process.env` secrets, opaque to the orchestration logic; each is
modelled as a distinct constant string. -/

def OPENWEATHER_API_KEY : String := "OPENWEATHER_API_KEY"

def WEATHERAPI_KEY : String := "WEATHERAPI_KEY"

def NEWSAPI_KEY : String := "NEWSAPI_KEY"

def GNEWS_KEY : String := "GNEWS_KEY"

def EVENTS_API_KEY : String := "EVENTS_API_KEY"

def TRAFFIC_API_KEY : String := "TRAFFIC_API_KEY"

def GEOCODING_API_KEY : String := "GEOCODING_API_KEY"

def GEONAMES_USERNAME : String := "GEONAMES_USERNAME"

/- URL templates, one per provider endpoint, as built in the source. -/

/-- First weather provider URL (OpenWeatherMap forecast). -/
def owmForecastUrl (cityName : String) : String :=
  "https://api.openweathermap.org/data/2.5/forecast?q=" ++ cityName ++
    "&units=metric&appid=" ++ OPENWEATHER_API_KEY

/-- Second weather provider URL (WeatherAPI forecast). -/
def weatherapiForecastUrl (cityName : String) : String :=
  "https://api.weatherapi.com/v1/forecast.json?key=" ++ WEATHERAPI_KEY ++
    "&q=" ++ cityName ++ "&days=7"

/-- First news provider URL (NewsAPI). -/
def newsapiUrl (cityName : String) : String :=
  "https://newsapi.org/v2/everything?q=" ++ cityName ++ "&apiKey=" ++ NEWSAPI_KEY

/-- Second news provider URL (GNews). -/
def gnewsUrl (cityName : String) : String :=
  "https://gnews.io/api/v4/search?q=" ++ cityName ++ "&lang=en&token=" ++ GNEWS_KEY

/-- Events provider URL (Eventful). -/
def eventfulUrl (cityName : String) : String :=
  "https://api.eventful.com/json/events/search?location=" ++ cityName ++
    "&app_key=" ++ EVENTS_API_KEY

/-- Geocoding URL used as step 1 of the traffic chain. -/
def trafficGeoUrl (cityName : String) : String :=
  "https://api.openweathermap.org/geo/1.0/direct?q=" ++ cityName ++
    "&limit=1&appid=" ++ GEOCODING_API_KEY

/-- Traffic flow-data URL (TomTom), parameterised by the rendered
latitude and longitude. -/
def trafficFlowUrl (lat lon : String) : String :=
  "https://api.tomtom.com/traffic/services/4/flowSegmentData/absolute/10/json?key=" ++
    TRAFFIC_API_KEY ++ "&point=" ++ lat ++ "," ++ lon

/-- City-info provider 1 URL (GeoNames). -/
def geoNamesUrl (cityName : String) : String :=
  "http://api.geonames.org/searchJSON?q=" ++ cityName ++ "&maxRows=1&username=" ++
    GEONAMES_USERNAME

/-- City-info provider 2 URL (Wikipedia page summary). -/
def wikipediaUrl (cityName : String) : String :=
  "https://en.wikipedia.org/api/rest_v1/page/summary/" ++ cityName

/-- City-info provider 3 URL (OpenWeatherMap geocoding); the same template
as the traffic geocoding step. -/
def geoCodingUrl (cityName : String) : String :=
  "https://api.openweathermap.org/geo/1.0/direct?q=" ++ cityName ++
    "&limit=1&appid=" ++ GEOCODING_API_KEY

/- The five category chains.  Each takes the fetch oracle and the city name
and returns the chain result (the object the async function resolves with)
paired with the trace of URLs passed to `axiosWithRotation`, in order. -/

/-- `fetchWeatherData`: the for-loop over the two weather URLs, unrolled.
A fetch success is returned verbatim as `(data, source)`; if both fail the
sentinel is returned. -/
def fetchWeatherData (fetch : String → Option JVal) (cityName : String) :
    JVal × List String :=
  let u1 := owmForecastUrl cityName
  let u2 := weatherapiForecastUrl cityName
  match fetch u1 with
  | some d => (JVal.obj [("data", d), ("source", JVal.str u1)], [u1])
  | none =>
    match fetch u2 with
    | some d => (JVal.obj [("data", d), ("source", JVal.str u2)], [u1, u2])
    | none =>
      (JVal.obj [("data", JVal.str "Weather data unavailable"),
                 ("source", JVal.str "None")], [u1, u2])

/-- `article.title` for one element of the articles array: raises a
TypeError (`none`) on a `null` element (JSON arrays cannot hold
`undefined`); on a non-object the property is `undefined`, which
JSON.stringify renders as `null` inside an array; on an object the property
value (or `null` for the same reason when missing). -/
def articleTitle : JVal → Option JVal
  | JVal.null => none
  | JVal.obj fields => some ((fields.lookup "title").getD JVal.null)
  | _ => some JVal.null

/-- News normalisation: `response.data.articles.slice(0, 10).map(a => a.title)`.
It succeeds exactly when `articles` is an array none of whose first ten
elements is `null` (a `null` payload raises on `.articles`, a missing or
non-array `articles` raises on `.slice`/`.map`, and a `null` element raises
on `.title`; each failure is caught by the provider loop). -/
def articleTitles (d : JVal) : Option (List JVal) :=
  match d.get "articles" with
  | some (JVal.arr xs) => (xs.take 10).mapM articleTitle
  | _ => none

/-- `fetchNewsData`: the for-loop over the two news URLs, unrolled, with the
title normalisation applied inside each try block. -/
def fetchNewsData (fetch : String → Option JVal) (cityName : String) :
    JVal × List String :=
  let u1 := newsapiUrl cityName
  let u2 := gnewsUrl cityName
  match (fetch u1).bind (fun d => articleTitles d) with
  | some ts => (JVal.obj [("data", JVal.arr ts), ("source", JVal.str u1)], [u1])
  | none =>
    match (fetch u2).bind (fun d => articleTitles d) with
    | some ts => (JVal.obj [("data", JVal.arr ts), ("source", JVal.str u2)], [u1, u2])
    | none =>
      (JVal.obj [("data", JVal.str "News data unavailable"),
                 ("source", JVal.str "None")], [u1, u2])

/-- The events sentinel returned by the catch block of `fetchEventsData`. -/
def eventsUnavailable : JVal :=
  JVal.obj [("data", JVal.str "Events data unavailable"), ("source", JVal.str "None")]

/-- One entry of the events list: the template of `e.title` and
`e.venue_name`.  A `null` element raises a TypeError (`none`) on `.title`;
a non-object element renders both properties as "undefined". -/
def eventEntry : JVal → Option String
  | JVal.null => none
  | e => some (jsTemplate (e.get "title") ++ " at " ++
      jsTemplate (e.get "venue_name"))

/-- `fetchEventsData`: one provider.  A `null` payload raises on `.events`;
`response.data.events?.event || []` tolerates a missing events array as the
empty list; if that expression is a truthy non-array, `.slice`/`.map`
raises; a `null` entry raises on `.title`; every raise is caught and the
sentinel returned. -/
def fetchEventsData (fetch : String → Option JVal) (cityName : String) :
    JVal × List String :=
  let u := eventfulUrl cityName
  match fetch u with
  | none => (eventsUnavailable, [u])
  | some JVal.null => (eventsUnavailable, [u])
  | some d =>
    let evRaw := (d.get "events").bind (fun e => JVal.get e "event")
    let events := if truthy evRaw then evRaw else some (JVal.arr [])
    match events with
    | some (JVal.arr xs) =>
      match (xs.take 10).mapM eventEntry with
      | some entries =>
        (JVal.obj [("data", JVal.arr (entries.map JVal.str)),
          ("source", JVal.str u)], [u])
      | none => (eventsUnavailable, [u])
    | _ => (eventsUnavailable, [u])

/-- The traffic sentinel returned by the catch block of `fetchTrafficData`. -/
def trafficUnavailable : JVal :=
  JVal.obj [("traffic_status", JVal.str "Traffic data unavailable"),
            ("source", JVal.str "None")]

/-- `fetchTrafficData`: geocoding sub-fetch first.  `geoResponse.data[0]`
raises on a `null` body; then `if (!location) throw` fails every falsy
location (`undefined`, `null`, `0`, `""`, `false`); both raises are caught
and return the sentinel without touching the flow-data URL.  Any truthy
location — including the one-character string `data[0]` produces on a
string body — is destructured and the flow-data fetch is attempted.  On a
flow-data response, a missing `flowSegmentData.currentSpeed` yields the
string "Traffic data unavailable" in `traffic_status` while `source` stays
the flow URL. -/
def fetchTrafficData (fetch : String → Option JVal) (cityName : String) :
    JVal × List String :=
  let geoU := trafficGeoUrl cityName
  match fetch geoU with
  | none => (trafficUnavailable, [geoU])
  | some gd =>
    match jsIndexZero gd with
    | none => (trafficUnavailable, [geoU])
    | some location =>
      match location with
      | some lv =>
        if truthy (some lv) then
          let lat := lv.get "lat"
          let lon := lv.get "lon"
          let tURL := trafficFlowUrl (jsTemplate lat) (jsTemplate lon)
          match fetch tURL with
          | none => (trafficUnavailable, [geoU, tURL])
          | some td =>
            let speed := (td.get "flowSegmentData").bind
              (fun f => JVal.get f "currentSpeed")
            (JVal.obj [("traffic_status",
                if truthy speed then
                  JVal.str ("Current speed: " ++ jsTemplate speed ++ " km/h")
                else JVal.str "Traffic data unavailable"),
              ("source", JVal.str tURL)], [geoU, tURL])
        else (trafficUnavailable, [geoU])
      | none => (trafficUnavailable, [geoU])

/-- The city-info sentinel returned when all three providers fail. -/
def cityInfoUnavailable : JVal :=
  JVal.obj [("error", JVal.str "City information unavailable"),
            ("source", JVal.str "None")]

/-- The GeoNames try-block body applied to a fetched payload: `some` the
returned object when the block returns, `none` when it raises or falls
through.  A `null` payload raises on `.geonames`; `.length` raises when
`geonames` is `undefined` or `null`; a length not greater than 0 (arrays,
strings, or an object's own `length` property — `undefined` on numbers and
booleans) falls through; `geonames[0]` then yields the first element (the
first character for a string, the "0" property for an object), and a
`null` or `undefined` `cityData` raises on `.name`.  On the success path
`population || "Data unavailable"` maps every falsy population to the
fixed string and `undefined` fields are omitted from the result. -/
def geoNamesNormalize (gURL : String) : JVal → Option JVal
  | JVal.null => none
  | gd =>
    let geonames := gd.get "geonames"
    match jsLengthOf geonames with
    | none => none
    | some lenV =>
      if jsGtZero lenV then
        match geonames with
        | some g =>
          match jsIndexZero g with
          | some (some JVal.null) => none
          | some (some cityData) =>
            some (JVal.obj (jfield "name" (cityData.get "name") ++
              [("population",
                jsOr (cityData.get "population") "Data unavailable")] ++
              jfield "country" (cityData.get "countryName") ++
              [("coordinates", JVal.obj (jfield "lat" (cityData.get "lat") ++
                  jfield "lon" (cityData.get "lng")))] ++
              [("source", JVal.str gURL)]))
          | _ => none
        | none => none
      else none

/-- The Wikipedia try-block body applied to a fetched payload: a `null`
payload raises on `.title` (`none`); otherwise the block returns, with a
falsy extract or a missing thumbnail source replaced by fixed strings and
an `undefined` title omitted. -/
def wikipediaNormalize (wURL : String) : JVal → Option JVal
  | JVal.null => none
  | d =>
    some (JVal.obj (jfield "name" (d.get "title") ++
      [("description", jsOr (d.get "extract") "Description unavailable"),
       ("image", jsOr ((d.get "thumbnail").bind (fun t => JVal.get t "source"))
         "No image available"),
       ("source", JVal.str wURL)]))

/-- The OpenWeatherMap-geocoding try-block body applied to a fetched
payload: `geoResponse.data.length` raises on a `null` body; a length not
greater than 0 falls through; `data[0]` yields the location, and a `null`
or `undefined` location raises on `.name`. -/
def geoCodingNormalize (gcURL : String) (d : JVal) : Option JVal :=
  match jsLengthOf (some d) with
  | none => none
  | some lenV =>
    if jsGtZero lenV then
      match jsIndexZero d with
      | some (some JVal.null) => none
      | some (some location) =>
        some (JVal.obj (jfield "name" (location.get "name") ++
          [("coordinates", JVal.obj (jfield "lat" (location.get "lat") ++
              jfield "lon" (location.get "lon")))] ++
          jfield "country" (location.get "country") ++
          [("source", JVal.str gcURL)]))
      | _ => none
    else none

/-- Third city-info attempt (OpenWeatherMap geocoding), given the trace of
the URLs already attempted; when it fails too, the chain returns the
city-info sentinel. -/
def cityInfoTryGeoCoding (fetch : String → Option JVal) (cityName : String)
    (pre : List String) : JVal × List String :=
  let gcURL := geoCodingUrl cityName
  (match (fetch gcURL).bind (geoCodingNormalize gcURL) with
   | some res => res
   | none => cityInfoUnavailable, pre ++ [gcURL])

/-- Second city-info attempt (Wikipedia page summary), given the trace of
the URLs already attempted. -/
def cityInfoTryWikipedia (fetch : String → Option JVal) (cityName : String)
    (pre : List String) : JVal × List String :=
  let wURL := wikipediaUrl cityName
  match (fetch wURL).bind (wikipediaNormalize wURL) with
  | some res => (res, pre ++ [wURL])
  | none => cityInfoTryGeoCoding fetch cityName (pre ++ [wURL])

/-- `fetchCityInfo`: GeoNames, then Wikipedia, then OpenWeatherMap
geocoding; each provider is its fetch followed by its try-block
normaliser, and the first success is returned at once. -/
def fetchCityInfo (fetch : String → Option JVal) (cityName : String) :
    JVal × List String :=
  let gURL := geoNamesUrl cityName
  match (fetch gURL).bind (geoNamesNormalize gURL) with
  | some res => (res, [gURL])
  | none => cityInfoTryWikipedia fetch cityName [gURL]

/-- The `/api/city/:cityName` handler body.  The five chains never reject
(each resolves with a result object for every oracle), so every
`Promise.allSettled` slot is fulfilled and the rejected-branch placeholders
are dead code.  `city_info` is built from `cityResponse.value.data`; a
`data` property absent from the chain result makes the field `undefined`,
which `res.json` omits from the serialised response. -/
def handleCity (fetch : String → Option JVal) (cityName : String) : JVal :=
  let cityR := (fetchCityInfo fetch cityName).1
  JVal.obj ([("city", JVal.str cityName)] ++
    jfield "city_info" (cityR.get "data") ++
    [("weather", (fetchWeatherData fetch cityName).1),
     ("news", (fetchNewsData fetch cityName).1),
     ("events", (fetchEventsData fetch cityName).1),
     ("traffic", (fetchTrafficData fetch cityName).1)])

/- The response cache and the resilient fetcher `axiosWithRotation`. -/

/-- Cache state: association list from URL to (payload, insertion time in
seconds).  `cache.set` prepends, so lookup finds the most recent entry. -/
abbrev Cache : Type := List (String × JVal × Nat)

/-- `stdTTL` of the NodeCache instance: 3600 seconds. -/
def stdTTL : Nat := 3600

/-- `cache.get url` at time `now`: an entry inserted at `t` is visible while
`now < t + stdTTL`, absent afterwards (lazy time-based expiry). -/
def cacheGet (c : Cache) (now : Nat) (url : String) : Option JVal :=
  match List.lookup url c with
  | some (v, t) => if now < t + stdTTL then some v else none
  | none => none

/-- `cache.set url v` at time `now`. -/
def cacheSet (c : Cache) (now : Nat) (url : String) (v : JVal) : Cache :=
  (url, v, now) :: c

/-- Observable steps of one `axiosWithRotation` call, in order: user-agent
construction, proxy selection, and the outbound `axios.get` network call. -/
inductive FetchEvent where
  | genUserAgent : FetchEvent
  | proxySelect : FetchEvent
  | netCall : String → FetchEvent
deriving DecidableEq

/-- Outcome of one `axiosWithRotation` call: the resolved `response.data`
(`none` if the call threw), the cache state afterwards, and the trace of
observable steps performed. -/
structure FetchResult where
  result : Option JVal
  cache : Cache
  events : List FetchEvent

/-- `axiosWithRotation url`, embedded over: the environment mode string,
the outcome of `getValidProxy` in non-production mode (`none` = it threw),
the network `net` (the `axios.get` outcome per URL), the clock and the cache
state.  The source constructs `new UserAgent()` first, then checks the
cache (a truthy cached value short-circuits), then branches on the mode;
a successful network response is cached, a failure is rethrown uncached. -/
def axiosWithRotation (env : String) (proxySel : Option Unit)
    (net : String → Option JVal) (now : Nat) (c : Cache) (url : String) :
    FetchResult :=
  let cachedData := cacheGet c now url
  if truthy cachedData then
    { result := cachedData, cache := c, events := [FetchEvent.genUserAgent] }
  else if env == "production" then
    match net url with
    | some d =>
      { result := some d, cache := cacheSet c now url d,
        events := [FetchEvent.genUserAgent, FetchEvent.netCall url] }
    | none =>
      { result := none, cache := c,
        events := [FetchEvent.genUserAgent, FetchEvent.netCall url] }
  else
    match proxySel with
    | none =>
      { result := none, cache := c,
        events := [FetchEvent.genUserAgent, FetchEvent.proxySelect] }
    | some _ =>
      match net url with
      | some d =>
        { result := some d, cache := cacheSet c now url d,
          events := [FetchEvent.genUserAgent, FetchEvent.proxySelect,
                     FetchEvent.netCall url] }
      | none =>
        { result := none, cache := c,
          events := [FetchEvent.genUserAgent, FetchEvent.proxySelect,
                     FetchEvent.netCall url] }

/-- Number of outbound network calls in a trace. -/
def netCalls : List FetchEvent → Nat
  | [] => 0
  | FetchEvent.netCall _ :: rest => netCalls rest + 1
  | _ :: rest => netCalls rest

/- The proxy validator and selector `getValidProxy`. -/

/-- A proxy candidate from the loaded list. -/
structure Proxy where
  host : String
  port : Nat
  username : Option String
  password : Option String

/-- The message of the error thrown in production mode. -/
def proxyProdMsg : String := "Proxy rotation is not enabled in production."

/-- The message of the error thrown when the retry loop ends without a
valid proxy (also reached immediately when the list is empty). -/
def proxyExhaustedMsg : String := "No valid proxies available after maximum retries."

/-- The while loop of `getValidProxy`, recursing on the remaining retry
budget `maxRetries - retries`; `validate` is the outcome of
`validateProxy` per candidate and `rand k` the random pick of iteration
`k` (taken modulo the list length, as `Math.floor(Math.random()*len)`
always lands in range).  Returns the outcome paired with the number of
probe attempts performed. -/
def getValidProxyLoop (pl : List Proxy) (validate : Proxy → Bool)
    (rand : Nat → Nat) : Nat → Nat → Except String Proxy × Nat
  | 0, _ => (Except.error proxyExhaustedMsg, 0)
  | n + 1, k =>
    if h : 0 < pl.length then
      let proxy := pl.get ⟨rand k % pl.length, Nat.mod_lt _ h⟩
      if validate proxy then (Except.ok proxy, 1)
      else
        let r := getValidProxyLoop pl validate rand n (k + 1)
        (r.1, r.2 + 1)
    else (Except.error proxyExhaustedMsg, 0)

/-- `getValidProxy(maxRetries)`: throws at once in production mode; in
non-production mode runs the retry loop over the loaded list. -/
def getValidProxy (env : String) (pl : List Proxy) (validate : Proxy → Bool)
    (rand : Nat → Nat) (maxRetries : Nat) : Except String Proxy × Nat :=
  if env == "production" then (Except.error proxyProdMsg, 0)
  else getValidProxyLoop pl validate rand maxRetries 0

/- Concrete inputs used in closed instantiations of the claims. -/

/-- A Wikipedia page-summary payload for Paris. -/
def parisWikiSummary : JVal :=
  JVal.obj [("title", JVal.str "Paris"),
            ("extract", JVal.str "Paris is the capital of France."),
            ("thumbnail", JVal.obj [("source",
              JVal.str "https://upload.wikimedia.org/paris.jpg")])]

/-- Fetch oracle for the scenario where the GeoNames request fails (times
out) and the Wikipedia request succeeds; every other request fails. -/
def parisWikiOnlyFetch : String → Option JVal :=
  fun url => if url == wikipediaUrl "Paris" then some parisWikiSummary else none

/-- A GeoNames hit for Paris whose population is the number 0. -/
def parisZeroPopCityData : JVal :=
  JVal.obj [("name", JVal.str "Paris"), ("population", JVal.num 0),
            ("countryName", JVal.str "France"),
            ("lat", JVal.num 48), ("lng", JVal.num 2)]

/-- A GeoNames response payload carrying the zero-population hit. -/
def parisZeroPopulation : JVal :=
  JVal.obj [("geonames", JVal.arr [parisZeroPopCityData])]

/-- Fetch oracle where every request resolves with the zero-population
GeoNames payload. -/
def parisZeroPopFetch : String → Option JVal :=
  fun _ => some parisZeroPopulation

/- Helper lemmas. -/

/-- When every probe fails and the list is non-empty, the retry loop performs
exactly one probe per unit of remaining budget and ends with the
exhaustion error. -/
theorem getValidProxyLoop_allFail (pl : List Proxy) (validate : Proxy → Bool)
    (rand : Nat → Nat) (hpl : pl ≠ []) (hv : ∀ p, validate p = false) :
    ∀ n k, getValidProxyLoop pl validate rand n k =
      (Except.error proxyExhaustedMsg, n) := by
  intro n
  induction n with
  | zero => intro k; rfl
  | succ m ih =>
    intro k
    have hlen : 0 < pl.length := List.length_pos.mpr hpl
    simp [getValidProxyLoop, hlen, hv, ih (k + 1)]

/-- C6 (amended): in non-production mode with a non-empty candidate list and
a probe that always fails, `getValidProxy(maxRetries = N)` performs exactly N
probe attempts (in particular at most N) and then fails with the
retries-exhausted error, whose message reads "No valid proxies available
after maximum retries." rather than the wording quoted in the claim. -/
theorem c6_proxy_all_probes_fail (env : String) (pl : List Proxy)
    (validate : Proxy → Bool) (rand : Nat → Nat) (N : Nat)
    (henv : env ≠ "production") (hpl : pl ≠ []) (hv : ∀ p, validate p = false) :
    getValidProxy env pl validate rand N = (Except.error proxyExhaustedMsg, N) ∧
    (getValidProxy env pl validate rand N).2 ≤ N := by
  have hb : (env == "production") = false := by
    simp [henv]
  have h1 : getValidProxy env pl validate rand N =
      (Except.error proxyExhaustedMsg, N) := by
    simp [getValidProxy, hb, getValidProxyLoop_allFail pl validate rand hpl hv N 0]
  exact ⟨h1, by rw [h1]⟩

/-- C6 witness: three retries over a one-element list with an always-failing
probe give exactly three probes and the exhaustion error. -/
theorem c6_witness :
    getValidProxy "development" [⟨"h", 80, none, none⟩] (fun _ => false)
        (fun _ => 0) 3 = (Except.error proxyExhaustedMsg, 3) ∧
    (getValidProxy "development" [⟨"h", 80, none, none⟩] (fun _ => false)
        (fun _ => 0) 3).2 ≤ 3 :=
  c6_proxy_all_probes_fail "development" [⟨"h", 80, none, none⟩] (fun _ => false)
    (fun _ => 0) 3 (by decide) (List.cons_ne_nil _ _) (fun _ => rfl)

/-- C6 counterexample: the error raised after exhausting the retries is not
the string "no valid proxies after maximum retries" quoted by the claim; the
source throws "No valid proxies available after maximum retries." -/
theorem c6_counterexample :
    (getValidProxy "development" [⟨"h", 80, none, none⟩] (fun _ => false)
        (fun _ => 0) 3).1 ≠
      Except.error "no valid proxies after maximum retries" ∧
    (getValidProxy "development" [⟨"h", 80, none, none⟩] (fun _ => false)
        (fun _ => 0) 3).1 = Except.error proxyExhaustedMsg := by
  constructor
  · intro h
    rw [show (getValidProxy "development" [⟨"h", 80, none, none⟩] (fun _ => false)
        (fun _ => 0) 3).1 = Except.error proxyExhaustedMsg from rfl] at h
    injection h with h1
    exact absurd h1 (by decide)
  · rfl

/-- C7 (amended): in production mode every call to `getValidProxy` fails
immediately with zero probe attempts, for every candidate list, probe
outcome, random stream and retry budget; the error message reads "Proxy
rotation is not enabled in production." rather than the wording quoted in
the claim. -/
theorem c7_production_mode_invariant (pl : List Proxy) (validate : Proxy → Bool)
    (rand : Nat → Nat) (maxRetries : Nat) :
    getValidProxy "production" pl validate rand maxRetries =
      (Except.error proxyProdMsg, 0) := rfl

/-- C7 counterexample: the production-mode error is not the string
"proxy rotation disabled in production" quoted by the claim. -/
theorem c7_counterexample :
    (getValidProxy "production" [] (fun _ => false) (fun _ => 0) 5).1 ≠
      Except.error "proxy rotation disabled in production" ∧
    (getValidProxy "production" [] (fun _ => false) (fun _ => 0) 5).1 =
      Except.error proxyProdMsg := by
  constructor
  · intro h
    rw [show (getValidProxy "production" [] (fun _ => false) (fun _ => 0) 5).1 =
        Except.error proxyProdMsg from rfl] at h
    injection h with h1
    exact absurd h1 (by decide)
  · rfl

/-- C8 (amended): in non-production mode with an empty candidate list,
`getValidProxy` fails immediately with zero probe attempts; the while loop
is never entered and control falls through to the same "No valid proxies
available after maximum retries." error as the retries-exhausted case —
there is no separate "no proxies available" error in the source. -/
theorem c8_empty_proxy_list (env : String) (validate : Proxy → Bool)
    (rand : Nat → Nat) (maxRetries : Nat) (henv : env ≠ "production") :
    getValidProxy env [] validate rand maxRetries =
      (Except.error proxyExhaustedMsg, 0) := by
  have hb : (env == "production") = false := by
    simp [henv]
  cases maxRetries <;> simp [getValidProxy, getValidProxyLoop, hb]

/-- C8 witness: an empty list in development mode gives zero probes and the
exhaustion error. -/
theorem c8_witness :
    getValidProxy "development" [] (fun _ => false) (fun _ => 0) 5 =
      (Except.error proxyExhaustedMsg, 0) :=
  c8_empty_proxy_list "development" (fun _ => false) (fun _ => 0) 5 (by decide)

/-- C8 counterexample: with an empty list the raised error is not the
string "no proxies available" claimed by the spec but the retries-exhausted
message (probe count still zero). -/
theorem c8_counterexample :
    (getValidProxy "development" [] (fun _ => false) (fun _ => 0) 5).1 ≠
      Except.error "no proxies available" ∧
    (getValidProxy "development" [] (fun _ => false) (fun _ => 0) 5).1 =
      Except.error proxyExhaustedMsg ∧
    (getValidProxy "development" [] (fun _ => false) (fun _ => 0) 5).2 = 0 := by
  refine ⟨?_, rfl, rfl⟩
  intro h
  rw [show (getValidProxy "development" [] (fun _ => false) (fun _ => 0) 5).1 =
      Except.error proxyExhaustedMsg from rfl] at h
  injection h with h1
  exact absurd h1 (by decide)

/-- A cache hit (truthy cached value) returns the cached payload at once:
the call leaves the cache unchanged and its trace holds only the
user-agent construction that the source performs before the lookup. -/
theorem axios_hit (env : String) (proxySel : Option Unit)
    (net : String → Option JVal) (now : Nat) (c : Cache) (url : String)
    (hhit : truthy (cacheGet c now url) = true) :
    axiosWithRotation env proxySel net now c url =
      { result := cacheGet c now url, cache := c,
        events := [FetchEvent.genUserAgent] } := by
  simp [axiosWithRotation, hhit]

/-- Any single fetcher call performs at most one outbound network call. -/
theorem netCalls_le_one (env : String) (proxySel : Option Unit)
    (net : String → Option JVal) (now : Nat) (c : Cache) (url : String) :
    netCalls (axiosWithRotation env proxySel net now c url).events ≤ 1 := by
  by_cases hhit : truthy (cacheGet c now url) = true
  · simp [axiosWithRotation, hhit, netCalls]
  · have hmiss : truthy (cacheGet c now url) = false := by
      cases h : truthy (cacheGet c now url)
      · rfl
      · exact absurd h hhit
    cases hb : (env == "production") with
    | true => cases hnet : net url <;>
        simp [axiosWithRotation, hmiss, hb, hnet, netCalls]
    | false =>
      cases hps : proxySel with
      | none => simp [axiosWithRotation, hmiss, hb, hps, netCalls]
      | some u => cases hnet : net url <;>
          simp [axiosWithRotation, hmiss, hb, hps, hnet, netCalls]

/-- A cache miss performs exactly one outbound network call whenever the
network step is reachable (production mode, or a proxy was obtained). -/
theorem netCalls_of_miss (env : String) (proxySel : Option Unit)
    (net : String → Option JVal) (now : Nat) (c : Cache) (url : String)
    (hmiss : truthy (cacheGet c now url) = false)
    (hmode : env = "production" ∨ proxySel ≠ none) :
    netCalls (axiosWithRotation env proxySel net now c url).events = 1 := by
  cases hb : (env == "production") with
  | true => cases hnet : net url <;>
      simp [axiosWithRotation, hmiss, hb, hnet, netCalls]
  | false =>
    have hps : ∃ u, proxySel = some u := by
      rcases hmode with h | h
      · rw [h] at hb
        simp at hb
      · exact Option.ne_none_iff_exists'.mp h
    obtain ⟨u, hu⟩ := hps
    cases hnet : net url <;>
      simp [axiosWithRotation, hmiss, hb, hu, hnet, netCalls]

/-- An entry freshly stored at `t0` is returned by a lookup at any `t1`
inside its TTL window. -/
theorem cacheGet_set_hit (c : Cache) (t0 t1 : Nat) (url : String) (d : JVal)
    (h : t1 < t0 + stdTTL) :
    cacheGet (cacheSet c t0 url d) t1 url = some d := by
  simp [cacheGet, cacheSet, List.lookup, h]

/-- C4 (amended): two successive fetches of the same URL within the TTL
window perform at most one outbound network call, provided the upstream
response for that URL is a success with a truthy payload (a failed first
fetch caches nothing, so the second fetch would call upstream again); and a
fetch made at or after the expiry of the cached entry for the URL performs
a new outbound network call whenever the network step is reachable
(production mode, or a proxy was obtained in non-production mode). -/
theorem c4_cache_ttl (env : String) (proxySel : Option Unit)
    (net : String → Option JVal) (url : String) :
    (∀ (c0 : Cache) (t0 t1 : Nat) (d : JVal),
      t0 ≤ t1 → t1 < t0 + stdTTL → net url = some d → truthy (some d) = true →
      netCalls (axiosWithRotation env proxySel net t0 c0 url).events +
        netCalls (axiosWithRotation env proxySel net t1
          (axiosWithRotation env proxySel net t0 c0 url).cache url).events ≤ 1) ∧
    (∀ (c : Cache) (v : JVal) (tIns t2 : Nat),
      List.lookup url c = some (v, tIns) → tIns + stdTTL ≤ t2 →
      (env = "production" ∨ proxySel ≠ none) →
      netCalls (axiosWithRotation env proxySel net t2 c url).events = 1) := by
  constructor
  · intro c0 t0 t1 d ht01 httl hnet htr
    by_cases hhit : truthy (cacheGet c0 t0 url) = true
    · rw [axios_hit env proxySel net t0 c0 url hhit]
      have h2 := netCalls_le_one env proxySel net t1 c0 url
      simpa [netCalls] using h2
    · have hmiss : truthy (cacheGet c0 t0 url) = false := by
        cases h : truthy (cacheGet c0 t0 url)
        · rfl
        · exact absurd h hhit
      cases hb : (env == "production") with
      | true =>
        have hR1 : axiosWithRotation env proxySel net t0 c0 url =
            { result := some d, cache := cacheSet c0 t0 url d,
              events := [FetchEvent.genUserAgent, FetchEvent.netCall url] } := by
          simp [axiosWithRotation, hmiss, hb, hnet]
        rw [hR1]
        have hhit2 : truthy (cacheGet (cacheSet c0 t0 url d) t1 url) = true := by
          rw [cacheGet_set_hit c0 t0 t1 url d httl]
          exact htr
        rw [axios_hit env proxySel net t1 (cacheSet c0 t0 url d) url hhit2]
        simp [netCalls]
      | false =>
        cases proxySel with
        | none =>
          have hR1 : axiosWithRotation env none net t0 c0 url =
              { result := none, cache := c0,
                events := [FetchEvent.genUserAgent, FetchEvent.proxySelect] } := by
            simp [axiosWithRotation, hmiss, hb]
          rw [hR1]
          have h2 := netCalls_le_one env none net t1 c0 url
          simpa [netCalls] using h2
        | some u =>
          have hR1 : axiosWithRotation env (some u) net t0 c0 url =
              { result := some d, cache := cacheSet c0 t0 url d,
                events := [FetchEvent.genUserAgent, FetchEvent.proxySelect,
                           FetchEvent.netCall url] } := by
            simp [axiosWithRotation, hmiss, hb, hnet]
          rw [hR1]
          have hhit2 : truthy (cacheGet (cacheSet c0 t0 url d) t1 url) = true := by
            rw [cacheGet_set_hit c0 t0 t1 url d httl]
            exact htr
          rw [axios_hit env (some u) net t1 (cacheSet c0 t0 url d) url hhit2]
          simp [netCalls]
  · intro c v tIns t2 hlook hexp hmode
    have hget : cacheGet c t2 url = none := by
      simp [cacheGet, hlook, Nat.not_lt.mpr hexp]
    have hmiss : truthy (cacheGet c t2 url) = false := by
      rw [hget]
      rfl
    exact netCalls_of_miss env proxySel net t2 c url hmiss hmode

/-- C4 witness: with a succeeding upstream, a fetch at time 0 followed by a
fetch at time 5 performs one network call in total, and a fetch at time 7200
against an entry inserted at time 0 performs a new network call. -/
theorem c4_witness :
    netCalls (axiosWithRotation "production" none (fun _ => some (JVal.str "ok"))
        0 [] "u").events +
      netCalls (axiosWithRotation "production" none (fun _ => some (JVal.str "ok"))
        5 (axiosWithRotation "production" none (fun _ => some (JVal.str "ok"))
          0 [] "u").cache "u").events ≤ 1 ∧
    netCalls (axiosWithRotation "production" none (fun _ => some (JVal.str "ok"))
        7200 [("u", JVal.str "ok", 0)] "u").events = 1 :=
  ⟨(c4_cache_ttl "production" none (fun _ => some (JVal.str "ok")) "u").1
      [] 0 5 (JVal.str "ok") (by decide) (by decide) rfl rfl,
   (c4_cache_ttl "production" none (fun _ => some (JVal.str "ok")) "u").2
      [("u", JVal.str "ok", 0)] (JVal.str "ok") 0 7200 rfl (by decide) (Or.inl rfl)⟩

/-- C4 counterexample: as stated the claim is false — when the upstream
fails, nothing is cached, so two successive fetches of the same URL at the
same instant (well within any TTL window) perform two network calls. -/
theorem c4_counterexample :
    ¬ (netCalls (axiosWithRotation "production" none (fun _ => none) 0 [] "u").events +
        netCalls (axiosWithRotation "production" none (fun _ => none) 0
          (axiosWithRotation "production" none (fun _ => none) 0 [] "u").cache
          "u").events ≤ 1) := by
  decide

/-- C5 (amended): a cache hit (a truthy unexpired cached value) returns the
cached payload immediately, leaves the cache unchanged, and performs no
proxy selection and no network call; however the source constructs
`new UserAgent()` before the cache lookup, so a user-agent is generated
even on a hit — the trace is exactly the user-agent construction. -/
theorem c5_cache_hit_short_circuit (env : String) (proxySel : Option Unit)
    (net : String → Option JVal) (now : Nat) (c : Cache) (url : String)
    (hhit : truthy (cacheGet c now url) = true) :
    axiosWithRotation env proxySel net now c url =
      { result := cacheGet c now url, cache := c,
        events := [FetchEvent.genUserAgent] } :=
  axios_hit env proxySel net now c url hhit

/-- C5 witness: a concrete hit — entry for "u" inserted at time 0, fetched
at time 10 — returns the cached payload with only the user-agent step. -/
theorem c5_witness :
    axiosWithRotation "development" none (fun _ => none) 10
        [("u", JVal.str "x", 0)] "u" =
      { result := some (JVal.str "x"), cache := [("u", JVal.str "x", 0)],
        events := [FetchEvent.genUserAgent] } :=
  c5_cache_hit_short_circuit "development" none (fun _ => none) 10
    [("u", JVal.str "x", 0)] "u" rfl

/-- C5 counterexample: the claim as stated is false in its "no user-agent
generation" part — on a cache hit the trace still contains the user-agent
construction (while the payload is indeed served from cache). -/
theorem c5_counterexample :
    FetchEvent.genUserAgent ∈
      (axiosWithRotation "development" none (fun _ => none) 10
        [("u", JVal.str "x", 0)] "u").events ∧
    (axiosWithRotation "development" none (fun _ => none) 10
        [("u", JVal.str "x", 0)] "u").result = some (JVal.str "x") := by
  constructor
  · decide
  · rfl

/- Category-chain claims. -/

/-- C2 (amended): for every category chain and every city name, if every
fetch fails, the chain resolves (it never rejects: each chain is a total
function into a result object) with `source` equal to "None" — with a
capital N, not the "none" stated by the claim — and its payload equal to
the category sentinel: "Weather data unavailable" and "News data
unavailable" in `data`, the events sentinel in `data`, the traffic sentinel
in `traffic_status`, and "City information unavailable" in the city-info
`error` field. -/
theorem c2_all_providers_fail (fetch : String → Option JVal) (cityName : String)
    (hfail : ∀ url, fetch url = none) :
    (fetchWeatherData fetch cityName).1 =
      JVal.obj [("data", JVal.str "Weather data unavailable"),
                ("source", JVal.str "None")] ∧
    (fetchNewsData fetch cityName).1 =
      JVal.obj [("data", JVal.str "News data unavailable"),
                ("source", JVal.str "None")] ∧
    (fetchEventsData fetch cityName).1 = eventsUnavailable ∧
    (fetchTrafficData fetch cityName).1 = trafficUnavailable ∧
    (fetchCityInfo fetch cityName).1 = cityInfoUnavailable := by
  refine ⟨?_, ?_, ?_, ?_, ?_⟩ <;>
    simp [fetchWeatherData, fetchNewsData, fetchEventsData, fetchTrafficData,
      fetchCityInfo, cityInfoTryWikipedia, cityInfoTryGeoCoding, hfail]

/-- C2 witness: the all-failing oracle at city "Paris". -/
theorem c2_witness :
    (fetchWeatherData (fun _ => none) "Paris").1 =
      JVal.obj [("data", JVal.str "Weather data unavailable"),
                ("source", JVal.str "None")] ∧
    (fetchNewsData (fun _ => none) "Paris").1 =
      JVal.obj [("data", JVal.str "News data unavailable"),
                ("source", JVal.str "None")] ∧
    (fetchEventsData (fun _ => none) "Paris").1 = eventsUnavailable ∧
    (fetchTrafficData (fun _ => none) "Paris").1 = trafficUnavailable ∧
    (fetchCityInfo (fun _ => none) "Paris").1 = cityInfoUnavailable :=
  c2_all_providers_fail (fun _ => none) "Paris" (fun _ => rfl)

/-- C2 counterexample: when every weather provider fails, the result's
`source` is the string "None", not the "none" stated by the claim. -/
theorem c2_counterexample :
    JVal.get (fetchWeatherData (fun _ => none) "Paris").1 "source" ≠
      some (JVal.str "none") ∧
    JVal.get (fetchWeatherData (fun _ => none) "Paris").1 "source" =
      some (JVal.str "None") := by
  constructor
  · intro h
    rw [show JVal.get (fetchWeatherData (fun _ => none) "Paris").1 "source" =
        some (JVal.str "None") from rfl] at h
    injection h with h1
    injection h1 with h2
    exact absurd h2 (by decide)
  · rfl

/-- C9 (amended): in the traffic chain, if the geocoding sub-fetch fails or
yields no location — the fetch throws, `data[0]` raises on a `null` body,
or `data[0]` is falsy so the source's `if (!location) throw` fires — the
result is the traffic "unavailable" placeholder, whose `source` is "None"
(capital N), not the "none" stated by the claim, and the URL trace is
exactly the geocoding URL, so the flow-data fetch is never attempted. -/
theorem c9_traffic_geocoding_failure (fetch : String → Option JVal)
    (cityName : String)
    (hgeo : fetch (trafficGeoUrl cityName) = none ∨
      ∃ gd, fetch (trafficGeoUrl cityName) = some gd ∧
        (jsIndexZero gd = none ∨
         ∃ loc, jsIndexZero gd = some loc ∧ truthy loc = false)) :
    fetchTrafficData fetch cityName =
      (trafficUnavailable, [trafficGeoUrl cityName]) ∧
    JVal.get trafficUnavailable "source" = some (JVal.str "None") := by
  constructor
  · rcases hgeo with h | ⟨gd, hf, hi | ⟨loc, hl, ht⟩⟩
    · simp [fetchTrafficData, h]
    · simp [fetchTrafficData, hf, hi]
    · cases loc with
      | none => simp [fetchTrafficData, hf, hl]
      | some lv => simp [fetchTrafficData, hf, hl, ht]
  · rfl

/-- C9 witness: geocoding fails for "Paris"; only the geocoding URL is
fetched and the placeholder is returned. -/
theorem c9_witness :
    fetchTrafficData (fun _ => none) "Paris" =
      (trafficUnavailable, [trafficGeoUrl "Paris"]) ∧
    JVal.get trafficUnavailable "source" = some (JVal.str "None") :=
  c9_traffic_geocoding_failure (fun _ => none) "Paris" (Or.inl rfl)

/-- C9 counterexample: when the geocoding sub-fetch fails, the traffic
result's `source` is "None", not the "none" stated by the claim (the
flow-data fetch is indeed never attempted). -/
theorem c9_counterexample :
    JVal.get (fetchTrafficData (fun _ => none) "Paris").1 "source" ≠
      some (JVal.str "none") ∧
    JVal.get (fetchTrafficData (fun _ => none) "Paris").1 "source" =
      some (JVal.str "None") ∧
    (fetchTrafficData (fun _ => none) "Paris").2 = [trafficGeoUrl "Paris"] := by
  refine ⟨?_, rfl, rfl⟩
  intro h
  rw [show JVal.get (fetchTrafficData (fun _ => none) "Paris").1 "source" =
      some (JVal.str "None") from rfl] at h
  injection h with h1
  injection h1 with h2
  exact absurd h2 (by decide)

/-- C10: in the city-info chain, when the GeoNames provider succeeds — a
non-empty `geonames` array whose first element is not `null` (a `null`
first element would raise on `.name` and fail the provider) — a missing or
zero `population` is reported as the string "Data unavailable":
`population || "Data unavailable"` replaces every falsy population, so a
population of 0 is never returned as a number. -/
theorem c10_population_fallback (fetch : String → Option JVal)
    (cityName : String) (d cityData : JVal) (rest : List JVal)
    (hf : fetch (geoNamesUrl cityName) = some d)
    (hg : d.get "geonames" = some (JVal.arr (cityData :: rest)))
    (hnn : cityData ≠ JVal.null)
    (hpop : cityData.get "population" = none ∨
      cityData.get "population" = some (JVal.num 0)) :
    JVal.get (fetchCityInfo fetch cityName).1 "population" =
      some (JVal.str "Data unavailable") := by
  have hnorm : geoNamesNormalize (geoNamesUrl cityName) d =
      some (JVal.obj (jfield "name" (cityData.get "name") ++
        [("population", jsOr (cityData.get "population") "Data unavailable")] ++
        jfield "country" (cityData.get "countryName") ++
        [("coordinates", JVal.obj (jfield "lat" (cityData.get "lat") ++
            jfield "lon" (cityData.get "lng")))] ++
        [("source", JVal.str (geoNamesUrl cityName))])) := by
    cases d with
    | null => exact absurd hg (by simp [JVal.get])
    | bool b => exact absurd hg (by simp [JVal.get])
    | num n => exact absurd hg (by simp [JVal.get])
    | str s => exact absurd hg (by simp [JVal.get])
    | arr xs => exact absurd hg (by simp [JVal.get])
    | obj fields =>
      cases cityData
      case null => exact absurd rfl hnn
      all_goals
        simp [geoNamesNormalize, hg, jsLengthOf, jsGtZero, jsNum?, jsIndexZero]
  have hres : (fetchCityInfo fetch cityName).1 =
      JVal.obj (jfield "name" (cityData.get "name") ++
        [("population", jsOr (cityData.get "population") "Data unavailable")] ++
        jfield "country" (cityData.get "countryName") ++
        [("coordinates", JVal.obj (jfield "lat" (cityData.get "lat") ++
            jfield "lon" (cityData.get "lng")))] ++
        [("source", JVal.str (geoNamesUrl cityName))]) := by
    simp [fetchCityInfo, hf, hnorm]
  rw [hres]
  rcases hpop with h | h <;> rw [h] <;> cases hname : cityData.get "name" <;> rfl

/-- C10 witness: a GeoNames hit for Paris with population 0 yields the
string "Data unavailable" in the population field. -/
theorem c10_witness :
    JVal.get (fetchCityInfo parisZeroPopFetch "Paris").1 "population" =
      some (JVal.str "Data unavailable") :=
  c10_population_fallback parisZeroPopFetch "Paris" parisZeroPopulation
    parisZeroPopCityData [] rfl rfl (fun h => JVal.noConfusion h) (Or.inr rfl)

/-- The third city-info attempt always fetches exactly the geocoding URL,
whatever its outcome. -/
theorem cityInfoTryGeoCoding_trace (fetch : String → Option JVal)
    (cityName : String) (pre : List String) :
    (cityInfoTryGeoCoding fetch cityName pre).2 =
      pre ++ [geoCodingUrl cityName] := rfl

/-- The second city-info attempt fetches the Wikipedia URL and, only when
its provider fails, additionally the geocoding URL. -/
theorem cityInfoTryWikipedia_trace (fetch : String → Option JVal)
    (cityName : String) (pre : List String) :
    (cityInfoTryWikipedia fetch cityName pre).2 =
        pre ++ [wikipediaUrl cityName] ∨
    (cityInfoTryWikipedia fetch cityName pre).2 =
        pre ++ [wikipediaUrl cityName, geoCodingUrl cityName] := by
  cases h : (fetch (wikipediaUrl cityName)).bind
      (wikipediaNormalize (wikipediaUrl cityName)) with
  | some res => exact Or.inl (by simp [cityInfoTryWikipedia, h])
  | none =>
    right
    have h2 : (cityInfoTryWikipedia fetch cityName pre).2 =
        (cityInfoTryGeoCoding fetch cityName (pre ++ [wikipediaUrl cityName])).2 := by
      simp [cityInfoTryWikipedia, h]
    rw [h2, cityInfoTryGeoCoding_trace]
    simp

/-- C3: in every multi-provider chain, providers are attempted in declared
order and the first provider whose fetch and normalisation (the try-block
body: `articleTitles` for news, `geoNamesNormalize` / `wikipediaNormalize`
/ `geoCodingNormalize` for city info) succeed determines the result, with
later providers never fetched: a provider-k success after the earlier
providers failed makes the trace exactly the first k URLs and the result
that provider's normalised object; and every trace is a prefix of the
declared URL list. -/
theorem c3_first_success_wins (fetch : String → Option JVal) (cityName : String) :
    (∀ d, fetch (owmForecastUrl cityName) = some d →
      fetchWeatherData fetch cityName =
        (JVal.obj [("data", d), ("source", JVal.str (owmForecastUrl cityName))],
         [owmForecastUrl cityName])) ∧
    (∀ d, fetch (owmForecastUrl cityName) = none →
      fetch (weatherapiForecastUrl cityName) = some d →
      fetchWeatherData fetch cityName =
        (JVal.obj [("data", d),
           ("source", JVal.str (weatherapiForecastUrl cityName))],
         [owmForecastUrl cityName, weatherapiForecastUrl cityName])) ∧
    (∀ d ts, fetch (newsapiUrl cityName) = some d → articleTitles d = some ts →
      fetchNewsData fetch cityName =
        (JVal.obj [("data", JVal.arr ts),
           ("source", JVal.str (newsapiUrl cityName))],
         [newsapiUrl cityName])) ∧
    ((fetch (newsapiUrl cityName)).bind (fun d => articleTitles d) = none →
      ∀ d ts, fetch (gnewsUrl cityName) = some d → articleTitles d = some ts →
      fetchNewsData fetch cityName =
        (JVal.obj [("data", JVal.arr ts),
           ("source", JVal.str (gnewsUrl cityName))],
         [newsapiUrl cityName, gnewsUrl cityName])) ∧
    (∀ res, (fetch (geoNamesUrl cityName)).bind
        (geoNamesNormalize (geoNamesUrl cityName)) = some res →
      fetchCityInfo fetch cityName = (res, [geoNamesUrl cityName])) ∧
    ((fetch (geoNamesUrl cityName)).bind
        (geoNamesNormalize (geoNamesUrl cityName)) = none →
      ∀ res, (fetch (wikipediaUrl cityName)).bind
        (wikipediaNormalize (wikipediaUrl cityName)) = some res →
      fetchCityInfo fetch cityName =
        (res, [geoNamesUrl cityName, wikipediaUrl cityName])) ∧
    ((fetch (geoNamesUrl cityName)).bind
        (geoNamesNormalize (geoNamesUrl cityName)) = none →
      (fetch (wikipediaUrl cityName)).bind
        (wikipediaNormalize (wikipediaUrl cityName)) = none →
      ∀ res, (fetch (geoCodingUrl cityName)).bind
        (geoCodingNormalize (geoCodingUrl cityName)) = some res →
      fetchCityInfo fetch cityName =
        (res, [geoNamesUrl cityName, wikipediaUrl cityName,
               geoCodingUrl cityName])) ∧
    (∃ t, (fetchWeatherData fetch cityName).2 ++ t =
      [owmForecastUrl cityName, weatherapiForecastUrl cityName]) ∧
    (∃ t, (fetchNewsData fetch cityName).2 ++ t =
      [newsapiUrl cityName, gnewsUrl cityName]) ∧
    (∃ t, (fetchCityInfo fetch cityName).2 ++ t =
      [geoNamesUrl cityName, wikipediaUrl cityName, geoCodingUrl cityName]) := by
  refine ⟨?_, ?_, ?_, ?_, ?_, ?_, ?_, ?_, ?_, ?_⟩
  · intro d h
    simp [fetchWeatherData, h]
  · intro d h1 h2
    simp [fetchWeatherData, h1, h2]
  · intro d ts h1 h2
    simp [fetchNewsData, h1, h2]
  · intro h1 d ts h2 h3
    simp [fetchNewsData, h1, h2, h3]
  · intro res h
    simp [fetchCityInfo, h]
  · intro h1 res h2
    simp [fetchCityInfo, cityInfoTryWikipedia, h1, h2]
  · intro h1 h2 res h3
    simp [fetchCityInfo, cityInfoTryWikipedia, cityInfoTryGeoCoding, h1, h2, h3]
  · cases h1 : fetch (owmForecastUrl cityName) with
    | some d => exact ⟨[weatherapiForecastUrl cityName], by simp [fetchWeatherData, h1]⟩
    | none =>
      cases h2 : fetch (weatherapiForecastUrl cityName) with
      | some d => exact ⟨[], by simp [fetchWeatherData, h1, h2]⟩
      | none => exact ⟨[], by simp [fetchWeatherData, h1, h2]⟩
  · cases h1 : (fetch (newsapiUrl cityName)).bind (fun d => articleTitles d) with
    | some ts => exact ⟨[gnewsUrl cityName], by simp [fetchNewsData, h1]⟩
    | none =>
      cases h2 : (fetch (gnewsUrl cityName)).bind (fun d => articleTitles d) with
      | some ts => exact ⟨[], by simp [fetchNewsData, h1, h2]⟩
      | none => exact ⟨[], by simp [fetchNewsData, h1, h2]⟩
  · cases h1 : (fetch (geoNamesUrl cityName)).bind
        (geoNamesNormalize (geoNamesUrl cityName)) with
    | some res =>
      exact ⟨[wikipediaUrl cityName, geoCodingUrl cityName],
        by simp [fetchCityInfo, h1]⟩
    | none =>
      have h3 : (fetchCityInfo fetch cityName).2 =
          (cityInfoTryWikipedia fetch cityName [geoNamesUrl cityName]).2 := by
        simp [fetchCityInfo, h1]
      rw [h3]
      rcases cityInfoTryWikipedia_trace fetch cityName [geoNamesUrl cityName]
        with h | h
      · exact ⟨[geoCodingUrl cityName], by rw [h]; simp⟩
      · exact ⟨[], by rw [h]; simp⟩

/-- C3 witness: an always-succeeding oracle makes the weather chain stop at
the first provider with its data and URL. -/
theorem c3_witness :
    fetchWeatherData (fun _ => some JVal.null) "Paris" =
      (JVal.obj [("data", JVal.null),
                 ("source", JVal.str (owmForecastUrl "Paris"))],
       [owmForecastUrl "Paris"]) :=
  (c3_first_success_wins (fun _ => some JVal.null) "Paris").1 JVal.null rfl

/-- C1 (code bug): for city "Paris" with the GeoNames fetch failing and the
Wikipedia fetch succeeding, the city-info chain result does have `source`
equal to the Wikipedia URL and the fields name/description/image with no
population — but the composite response built by the handler omits
`city_info` entirely: the handler reads `cityResponse.value.data`, the
chain result has no `data` property, and `res.json` drops the resulting
`undefined` field.  This contradicts the claim and the example response in
the repository README, which show `city_info` carrying the chain result. -/
theorem c1_composite_city_info_missing :
    JVal.get (fetchCityInfo parisWikiOnlyFetch "Paris").1 "source" =
      some (JVal.str (wikipediaUrl "Paris")) ∧
    JVal.get (fetchCityInfo parisWikiOnlyFetch "Paris").1 "name" =
      some (JVal.str "Paris") ∧
    JVal.get (fetchCityInfo parisWikiOnlyFetch "Paris").1 "description" =
      some (JVal.str "Paris is the capital of France.") ∧
    JVal.get (fetchCityInfo parisWikiOnlyFetch "Paris").1 "image" =
      some (JVal.str "https://upload.wikimedia.org/paris.jpg") ∧
    JVal.get (fetchCityInfo parisWikiOnlyFetch "Paris").1 "population" = none ∧
    (fetchCityInfo parisWikiOnlyFetch "Paris").2 =
      [geoNamesUrl "Paris", wikipediaUrl "Paris"] ∧
    JVal.get (handleCity parisWikiOnlyFetch "Paris") "city_info" = none :=
  ⟨rfl, rfl, rfl, rfl, rfl, rfl, rfl⟩
